import Mathlib

/-!
Shallow embedding of the chatapp message broker (src/chatapp/server):
models.py (data model), repo.py (UsersRepo, MessagesRepo, GroupsRepo),
hub.py (Hub) and service.py (OpenStream handshake, backlog drain, and the
per-envelope reader step).  Python dicts are modelled as association lists
with first-match lookup and in-place update; Python sets whose iteration
order is observable (group member_ids, iterated by the broadcast loop) are
modelled as duplicate-free lists in insertion order, and sets used only
through membership (delivered_to) as Finset String.  Machine timestamps are
Int (proto int64); string truthiness in Python conditions is non-emptiness.
-/

namespace Chatapp

/-- Envelope types of chat_pb2 used by service.py. -/
inductive MsgType where
  | SYSTEM
  | SEND_DM
  | SEND_GROUP
  | ACK
deriving DecidableEq

/-- Wire envelope (chat_pb2.ChatEnvelope); absent proto3 fields default to
"" and 0, exactly as the Python code observes them. -/
structure ChatEnvelope where
  type : MsgType
  from_user_id : String := ""
  to_user_id : String := ""
  group_id : String := ""
  message_id : String := ""
  text : String := ""
  sent_ts : Int := 0
deriving DecidableEq

/-- models.py Message.  The dataclass declares no `delivered` field;
service.py line 381 (`msg.delivered = bool(delivered)`) assigns it
dynamically, so it is modelled as an Option that is `none` unless that
line ran.  `delivered_to` is a Python set. -/
structure Message where
  message_id : String
  from_user_id : String
  to_user_id : String
  text : String
  sent_ts : Int
  is_group_message : Bool := false
  delivered_to : Finset String := ∅
  delivered : Option Bool := none
deriving DecidableEq

/-- The JSONL record MessagesRepo.append / mark_delivered write
(repo.py lines 153-161 and 234-242): exactly these seven keys, and in
particular no `delivered` key. -/
structure MessageRec where
  message_id : String
  from_user_id : String
  to_user_id : String
  text : String
  sent_ts : Int
  is_group_message : Bool
  delivered_to : Finset String
deriving DecidableEq

/-- Serialization of a Message performed by repo.py lines 153-161: the
dynamically assigned `delivered` attribute is dropped. -/
def Message.toRec (m : Message) : MessageRec :=
  ⟨m.message_id, m.from_user_id, m.to_user_id, m.text, m.sent_ts,
    m.is_group_message, m.delivered_to⟩

/-- models.py Group.  member_ids is a Python set; it is iterated by the
service broadcast loop, so it is modelled as a duplicate-free list in
insertion order (set.add appends only when the element is absent). -/
structure Group where
  name : String
  creator_id : String
  member_ids : List String
  created_ts : Int
deriving DecidableEq

/-- models.py User. -/
structure User where
  id : String
  display_name : String
deriving DecidableEq

/-- First-match lookup in an association list: Python dict .get. -/
def dictGet {β : Type} : List (String × β) → String → Option β
  | [], _ => none
  | (k, v) :: rest, key => if k = key then some v else dictGet rest key

/-- Python dict assignment d[k] = v: replaces the first binding of k in
place, or appends a new binding (dict insertion order). -/
def dictSet {β : Type} (key : String) (v : β) : List (String × β) → List (String × β)
  | [] => [(key, v)]
  | (k, v0) :: rest =>
    if k = key then (key, v) :: rest else (k, v0) :: dictSet key v rest

/-- repo.py UsersRepo: the JSONL file plus the users_by_id dict. -/
structure UsersRepo where
  file : List User := []
  users_by_id : List (String × User) := []
deriving DecidableEq

/-- repo.py lines 39-54 UsersRepo.append_user: append the record to the
file, then update the in-memory dict. -/
def UsersRepo.append_user (r : UsersRepo) (user : User) : UsersRepo :=
  { file := r.file ++ [user], users_by_id := dictSet user.id user r.users_by_id }

/-- repo.py GroupsRepo: the JSONL file (one Group record per line) plus
the groups_by_name dict. -/
structure GroupsRepo where
  file : List Group := []
  groups_by_name : List (String × Group) := []
deriving DecidableEq

/-- repo.py lines 336-368 GroupsRepo.create_group: raising ValueError is
modelled as returning the untouched repo with an `Except.error` carrying
the Python exception message. -/
def GroupsRepo.create_group (r : GroupsRepo) (name creator_id : String)
    (created_ts : Int) : GroupsRepo × Except String Group :=
  if (dictGet r.groups_by_name name).isSome then
    (r, Except.error ("Group " ++ name ++ " already exists"))
  else
    let group : Group := ⟨name, creator_id, [creator_id], created_ts⟩
    ({ groups_by_name := dictSet name group r.groups_by_name,
       file := r.file ++ [group] },
     Except.ok group)

/-- repo.py lines 370-416 GroupsRepo.add_member: ValueError when the group
is absent; False without any write when already a member; otherwise add
the member (set.add = append, the guard ensured absence) and rewrite the
whole file from the dict. -/
def GroupsRepo.add_member (r : GroupsRepo) (group_name user_id : String) :
    GroupsRepo × Except String Bool :=
  match dictGet r.groups_by_name group_name with
  | none => (r, Except.error ("Group " ++ group_name ++ " does not exist"))
  | some group =>
    if user_id ∈ group.member_ids then
      (r, Except.ok false)
    else
      let group2 : Group := { group with member_ids := group.member_ids ++ [user_id] }
      let mem := dictSet group_name group2 r.groups_by_name
      ({ groups_by_name := mem, file := mem.map Prod.snd }, Except.ok true)

/-- repo.py lines 418-427 GroupsRepo.get_group. -/
def GroupsRepo.get_group (r : GroupsRepo) (name : String) : Option Group :=
  dictGet r.groups_by_name name

/-- repo.py lines 454-465 GroupsRepo.is_member: false when the group is
absent. -/
def GroupsRepo.is_member (r : GroupsRepo) (group_name user_id : String) : Bool :=
  match dictGet r.groups_by_name group_name with
  | some group => decide (user_id ∈ group.member_ids)
  | none => false

/-- repo.py MessagesRepo: the JSONL file plus the in-memory _messages
list. -/
structure MessagesRepo where
  file : List MessageRec := []
  msgs : List Message := []
deriving DecidableEq

/-- repo.py lines 142-169 MessagesRepo.append: write the serialized record
to the file, then append the Message to the in-memory list. -/
def MessagesRepo.append (r : MessagesRepo) (m : Message) : MessagesRepo :=
  { file := r.file ++ [m.toRec], msgs := r.msgs ++ [m] }

/-- The in-memory loop of repo.py lines 224-228: add user_id to the
delivered_to of the first message whose id matches, then stop (break). -/
def markFirst (message_id user_id : String) : List Message → List Message
  | [] => []
  | m :: rest =>
    if m.message_id = message_id then
      { m with delivered_to := insert user_id m.delivered_to } :: rest
    else
      m :: markFirst message_id user_id rest

/-- repo.py lines 211-245 MessagesRepo.mark_delivered: update the first
matching in-memory message, then rewrite the whole file from memory. -/
def MessagesRepo.mark_delivered (r : MessagesRepo) (message_id user_id : String) :
    MessagesRepo :=
  let mem := markFirst message_id user_id r.msgs
  { msgs := mem, file := mem.map Message.toRec }

/-- Python str.startswith('#') for a one-character marker: true exactly
when the first character of the string is '#'. -/
def startsWithHash (s : String) : Bool :=
  match s.data with
  | [] => false
  | c :: _ => c = '#'

/-- repo.py lines 171-209 MessagesRepo.get_undelivered_messages: group
messages need to_user_id starting with '#', user not in delivered_to, and
membership when a groups repo is given; direct messages need to_user_id
equal to the user and user not in delivered_to. -/
def MessagesRepo.get_undelivered_messages (r : MessagesRepo) (user_id : String)
    (groups_repo : Option GroupsRepo) : List Message :=
  r.msgs.filter fun msg =>
    if msg.is_group_message then
      startsWithHash msg.to_user_id && !(decide (user_id ∈ msg.delivered_to)) &&
        (groups_repo.elim true fun gr => gr.is_member msg.to_user_id user_id)
    else
      msg.to_user_id == user_id && !(decide (user_id ∈ msg.delivered_to))

/-- repo.py lines 247-276 MessagesRepo.get_conversation_messages: filter
the conversation, sort ascending by sent_ts (list.sort is a stable sort),
and keep the last `limit` entries (messages[-limit:]) when limit > 0. -/
def MessagesRepo.get_conversation_messages (r : MessagesRepo)
    (user_id chat_id : String) (is_group : Bool) (limit : Nat) : List Message :=
  let messages :=
    if is_group then
      r.msgs.filter fun m => m.is_group_message && m.to_user_id == chat_id
    else
      r.msgs.filter fun m =>
        !m.is_group_message &&
          ((m.from_user_id == user_id && m.to_user_id == chat_id) ||
           (m.from_user_id == chat_id && m.to_user_id == user_id))
  let sorted := messages.mergeSort fun a b => decide (a.sent_ts ≤ b.sent_ts)
  if 0 < limit then sorted.drop (sorted.length - limit) else sorted

/-- Spec-side conversation membership (spec.md section 4.4 `history`): for
a DM pair, the non-group messages exchanged between user_id and chat_id
in either direction; for a group, the group messages addressed to
chat_id. -/
def historyPred (user_id chat_id : String) (is_group : Bool) (m : Message) : Bool :=
  if is_group then
    m.is_group_message && m.to_user_id == chat_id
  else
    !m.is_group_message &&
      ((m.from_user_id == user_id && m.to_user_id == chat_id) ||
       (m.from_user_id == chat_id && m.to_user_id == user_id))

/-- hub.py Hub: the queues dict mapping online user ids to their pending
outbound envelopes (each asyncio.Queue modelled by its FIFO content). -/
structure Hub where
  queues : List (String × List ChatEnvelope) := []
deriving DecidableEq

/-- True when the user currently has a registered queue. -/
def Hub.online (h : Hub) (user_id : String) : Bool :=
  (dictGet h.queues user_id).isSome

/-- hub.py lines 28-49 register_queue: install a fresh empty queue,
replacing any existing entry for the user. -/
def Hub.register_queue (h : Hub) (user_id : String) : Hub :=
  { queues := dictSet user_id [] h.queues }

/-- hub.py lines 69-98 send_to_user: when the user has a queue, enqueue
the envelope and report true; otherwise report false with no effect. -/
def Hub.send_to_user (h : Hub) (user_id : String) (envelope : ChatEnvelope) :
    Hub × Bool :=
  match dictGet h.queues user_id with
  | some q => ({ queues := dictSet user_id (q ++ [envelope]) h.queues }, true)
  | none => (h, false)

/-- q.put on the queue previously registered for user_id (service.py line
332): appends to that queue. -/
def Hub.put (h : Hub) (user_id : String) (envelope : ChatEnvelope) : Hub :=
  (h.send_to_user user_id envelope).1

/-- One `await self.hub.send_to_user(target, envelope)` call made by the
service, with the boolean the hub returned. -/
structure HubSend where
  target : String
  envelope : ChatEnvelope
  delivered : Bool
deriving DecidableEq

/-- Shared server state touched by a session: the hub and the two stores
the reader mutates. -/
structure ServerState where
  hub : Hub
  messages : MessagesRepo
  groups : GroupsRepo
deriving DecidableEq

/-- Result of the broadcast loop of service.py lines 449-456. -/
structure BroadcastResult where
  hub : Hub
  delivered_count : Nat
  delivered_to : Finset String
  trace : List HubSend
deriving DecidableEq

/-- service.py lines 449-456: for each group member other than the sender,
attempt hub delivery; on success increment delivered_count and add the
member to the message's delivered_to set.  The trace records each
send_to_user call in loop order. -/
def broadcastLoop (sender : String) (wire : ChatEnvelope) :
    List String → Hub → Nat → Finset String → List HubSend → BroadcastResult
  | [], hub, delivered_count, dset, trace => ⟨hub, delivered_count, dset, trace⟩
  | member :: rest, hub, delivered_count, dset, trace =>
    if member = sender then
      broadcastLoop sender wire rest hub delivered_count dset trace
    else
      let res := hub.send_to_user member wire
      if res.2 then
        broadcastLoop sender wire rest res.1 (delivered_count + 1)
          (insert member dset) (trace ++ [⟨member, wire, res.2⟩])
      else
        broadcastLoop sender wire rest res.1 delivered_count dset
          (trace ++ [⟨member, wire, res.2⟩])

/-- One iteration of the reader loop of service.py lines 357-483,
processing a single inbound envelope for the ACTIVE session of `user_id`.
`fresh_id` stands for the uuid4 generated at line 358 and `fresh_id2` for
the one generated at line 480; `now` for int(time.time()*1000).  Returns
the new server state together with the trace of hub send_to_user calls
the iteration performed, in program order. -/
def readerStep (user_id fresh_id fresh_id2 : String) (now : Int)
    (incoming : ChatEnvelope) (s : ServerState) : ServerState × List HubSend :=
  let msg_id := if incoming.message_id = "" then fresh_id else incoming.message_id
  if incoming.type = MsgType.SEND_DM ∧ incoming.to_user_id ≠ "" ∧ incoming.text ≠ "" then
    let msg : Message :=
      { message_id := msg_id, from_user_id := user_id,
        to_user_id := incoming.to_user_id, text := incoming.text, sent_ts := now }
    let wire : ChatEnvelope :=
      { type := MsgType.SEND_DM, from_user_id := msg.from_user_id,
        to_user_id := msg.to_user_id, message_id := msg.message_id,
        text := msg.text, sent_ts := msg.sent_ts }
    let res := s.hub.send_to_user msg.to_user_id wire
    let msg2 : Message := { msg with delivered := some res.2 }
    let messages2 := s.messages.append msg2
    let ack : ChatEnvelope :=
      { type := MsgType.ACK, from_user_id := "server", to_user_id := user_id,
        message_id := msg.message_id,
        text := if res.2 then "delivered" else "queued", sent_ts := now }
    let res2 := res.1.send_to_user user_id ack
    (⟨res2.1, messages2, s.groups⟩,
     [⟨msg.to_user_id, wire, res.2⟩, ⟨user_id, ack, res2.2⟩])
  else if incoming.type = MsgType.SEND_GROUP ∧ incoming.group_id ≠ "" ∧ incoming.text ≠ "" then
    let group_name := incoming.group_id
    match s.groups.get_group group_name with
    | none =>
      let ack : ChatEnvelope :=
        { type := MsgType.ACK, from_user_id := "server", to_user_id := user_id,
          message_id := msg_id, text := "error: group not found", sent_ts := now }
      let res := s.hub.send_to_user user_id ack
      (⟨res.1, s.messages, s.groups⟩, [⟨user_id, ack, res.2⟩])
    | some group =>
      if ¬ s.groups.is_member group_name user_id then
        let ack : ChatEnvelope :=
          { type := MsgType.ACK, from_user_id := "server", to_user_id := user_id,
            message_id := msg_id, text := "error: not a member of this group",
            sent_ts := now }
        let res := s.hub.send_to_user user_id ack
        (⟨res.1, s.messages, s.groups⟩, [⟨user_id, ack, res.2⟩])
      else
        let wire : ChatEnvelope :=
          { type := MsgType.SEND_GROUP, from_user_id := user_id,
            group_id := group_name, message_id := msg_id,
            text := incoming.text, sent_ts := now }
        let b := broadcastLoop user_id wire group.member_ids s.hub 0 ∅ []
        let msg : Message :=
          { message_id := msg_id, from_user_id := user_id, to_user_id := group_name,
            text := incoming.text, sent_ts := now, is_group_message := true,
            delivered_to := insert user_id b.delivered_to }
        let messages2 := s.messages.append msg
        let total_members := group.member_ids.length - 1
        let ack : ChatEnvelope :=
          { type := MsgType.ACK, from_user_id := "server", to_user_id := user_id,
            message_id := msg_id,
            text := "delivered to " ++ toString b.delivered_count ++ "/" ++
              toString total_members ++ " members",
            sent_ts := now }
        let res := b.hub.send_to_user user_id ack
        (⟨res.1, messages2, s.groups⟩, b.trace ++ [⟨user_id, ack, res.2⟩])
  else
    let ack : ChatEnvelope :=
      { type := MsgType.ACK, from_user_id := "server", to_user_id := user_id,
        message_id := if incoming.message_id = "" then fresh_id2 else incoming.message_id,
        text := "ack", sent_ts := now }
    let res := s.hub.send_to_user user_id ack
    (⟨res.1, s.messages, s.groups⟩, [⟨user_id, ack, res.2⟩])

/-- service.py lines 313-330: re-wrap an undelivered stored message as the
envelope enqueued during backlog drain. -/
def backlogEnvelope (msg : Message) : ChatEnvelope :=
  if msg.is_group_message then
    { type := MsgType.SEND_GROUP, from_user_id := msg.from_user_id,
      group_id := msg.to_user_id, message_id := msg.message_id,
      text := msg.text, sent_ts := msg.sent_ts }
  else
    { type := MsgType.SEND_DM, from_user_id := msg.from_user_id,
      to_user_id := msg.to_user_id, message_id := msg.message_id,
      text := msg.text, sent_ts := msg.sent_ts }

/-- service.py lines 311-334: enqueue each backlog message into the
session's queue and mark it delivered, in list order. -/
def drainLoop (user_id : String) :
    List Message → Hub → MessagesRepo → Hub × MessagesRepo
  | [], hub, repo => (hub, repo)
  | msg :: rest, hub, repo =>
    drainLoop user_id rest (hub.put user_id (backlogEnvelope msg))
      (repo.mark_delivered msg.message_id user_id)

/-- service.py lines 297-334, the part of OpenStream before the reader
task starts: validate the handshake (first envelope must be SYSTEM with a
non-empty from_user_id, otherwise abort UNAUTHENTICATED without touching
any state), then register a hub queue for the user and drain the backlog.
The error case models context.abort, which raises and never returns. -/
def openStreamStart (first : ChatEnvelope) (s : ServerState) :
    ServerState × Except String String :=
  if first.type = MsgType.SYSTEM ∧ first.from_user_id ≠ "" then
    let user_id := first.from_user_id
    let hub1 := s.hub.register_queue user_id
    let undelivered := s.messages.get_undelivered_messages user_id (some s.groups)
    let drained := drainLoop user_id undelivered hub1 s.messages
    (⟨drained.1, drained.2, s.groups⟩, Except.ok user_id)
  else
    (s, Except.error "UNAUTHENTICATED: First message must be SYSTEM with from_user_id")

/-- A primitive side effect of a store mutation, used to state the order
in which the durable file and the in-memory cache are updated. -/
inductive Eff where
  | fileWrite
  | memWrite
deriving DecidableEq

/-- Effect order of MessagesRepo.append (repo.py lines 162-165): file
append, flush and fsync first, then the in-memory list append. -/
def append_steps : List Eff := [Eff.fileWrite, Eff.memWrite]

/-- Effect order of MessagesRepo.mark_delivered (repo.py lines 223-245):
the in-memory delivered_to update at lines 224-228 happens first, the full
file rewrite at lines 232-245 second. -/
def mark_delivered_steps : List Eff := [Eff.memWrite, Eff.fileWrite]

/-- Effect order of GroupsRepo.create_group (repo.py lines 359-366): the
dict insertion at line 365 precedes the _save_group file append at line
366. -/
def create_group_steps : List Eff := [Eff.memWrite, Eff.fileWrite]

/-- Effect order of GroupsRepo.add_member (repo.py lines 397-413): the
in-memory member_ids.add at line 398 precedes the file rewrite at lines
403-413. -/
def add_member_steps : List Eff := [Eff.memWrite, Eff.fileWrite]

/-- Effect order of UsersRepo.append_user (repo.py lines 50-53): the file
append, flush and fsync at lines 51-52 precede the dict update at line
53. -/
def append_user_steps : List Eff := [Eff.fileWrite, Eff.memWrite]

/-- Helper: scans a step list, tracking whether a durable write has
already happened; every in-memory update must be preceded by one. -/
def memCoveredFrom : Bool → List Eff → Bool
  | _, [] => true
  | _, Eff.fileWrite :: rest => memCoveredFrom true rest
  | seenFile, Eff.memWrite :: rest => seenFile && memCoveredFrom seenFile rest

/-- A mutation is write-through when every in-memory update in its effect
sequence happens after a durable file write. -/
def writeThrough (steps : List Eff) : Bool :=
  memCoveredFrom false steps

/-- Fixture: a server state where users alice and bob are both online with
empty queues and both stores are empty. -/
def demoDMState : ServerState :=
  ⟨⟨[("alice", []), ("bob", [])]⟩, ⟨[], []⟩, ⟨[], []⟩⟩

/-- Fixture: a SEND_DM envelope from the session of alice to bob. -/
def demoDMEnvelope : ChatEnvelope :=
  { type := MsgType.SEND_DM, to_user_id := "bob", text := "hi", message_id := "m1" }

/-- Fixture: a three-member group; carol is offline in demoGroupState. -/
def demoGroup : Group := ⟨"#team", "alice", ["alice", "bob", "carol"], 5⟩

/-- Fixture: alice and bob online, demoGroup present in the group store. -/
def demoGroupState : ServerState :=
  ⟨⟨[("alice", []), ("bob", [])]⟩, ⟨[], []⟩, ⟨[demoGroup], [("#team", demoGroup)]⟩⟩

/-- Fixture: a SEND_GROUP envelope to demoGroup. -/
def demoGroupEnvelope : ChatEnvelope :=
  { type := MsgType.SEND_GROUP, group_id := "#team", text := "yo", message_id := "m2" }

/-- Fixture: a stored group message whose group name does not start with
the reserved '#' marker. -/
def demoPlainNameMsg : Message :=
  { message_id := "x1", from_user_id := "vera", to_user_id := "team",
    text := "t", sent_ts := 0, is_group_message := true }

/-- Fixture: a group store containing the group "team" (no '#' marker)
whose only member is "uma". -/
def demoPlainNameGroups : GroupsRepo :=
  ⟨[⟨"team", "uma", ["uma"], 0⟩], [("team", ⟨"team", "uma", ["uma"], 0⟩)]⟩

/-- Fixture: a message store holding only demoPlainNameMsg. -/
def demoPlainNameRepo : MessagesRepo :=
  ⟨[demoPlainNameMsg.toRec], [demoPlainNameMsg]⟩

/-- Fixture: a small direct message for conversation-history witnesses. -/
def demoConvMsg (i f t : String) (ts : Int) : Message :=
  { message_id := i, from_user_id := f, to_user_id := t, text := "", sent_ts := ts }

/-- Fixture: a message store with an unsorted two-way conversation. -/
def demoConvRepo : MessagesRepo :=
  ⟨[], [demoConvMsg "a" "u" "c" 5, demoConvMsg "b" "c" "u" 3, demoConvMsg "q" "u" "z" 4]⟩

theorem dictGet_dictSet_self {β : Type} (key : String) (v : β)
    (l : List (String × β)) : dictGet (dictSet key v l) key = some v := by
  induction l with
  | nil => simp [dictGet, dictSet]
  | cons kv rest ih =>
    obtain ⟨k, v0⟩ := kv
    by_cases h : k = key
    · simp [dictGet, dictSet, h]
    · simp [dictGet, dictSet, h, ih]

theorem dictGet_dictSet_ne {β : Type} {key key2 : String} (v : β)
    (l : List (String × β)) (h : key2 ≠ key) :
    dictGet (dictSet key v l) key2 = dictGet l key2 := by
  induction l with
  | nil =>
    simp only [dictGet, dictSet]
    rw [if_neg (Ne.symm h)]
  | cons kv rest ih =>
    obtain ⟨k, v0⟩ := kv
    by_cases hk : k = key
    · subst hk
      simp [dictGet, dictSet, Ne.symm h]
    · simp [dictGet, dictSet, hk, ih]

theorem dictGet_mem_values {β : Type} {l : List (String × β)} {k : String} {v : β}
    (h : dictGet l k = some v) : v ∈ l.map Prod.snd := by
  induction l with
  | nil => simp [dictGet] at h
  | cons kv rest ih =>
    obtain ⟨k0, v0⟩ := kv
    by_cases hk : k0 = k
    · simp only [dictGet, if_pos hk, Option.some.injEq] at h
      simp [h]
    · simp only [dictGet, if_neg hk] at h
      simp [ih h]

theorem send_to_user_snd (h : Hub) (u : String) (e : ChatEnvelope) :
    (h.send_to_user u e).2 = h.online u := by
  unfold Hub.send_to_user Hub.online
  cases hq : dictGet h.queues u <;> simp [hq]

theorem online_send_to_user (h : Hub) (u v : String) (e : ChatEnvelope) :
    (h.send_to_user u e).1.online v = h.online v := by
  unfold Hub.send_to_user
  cases hq : dictGet h.queues u with
  | none => simp
  | some q =>
    simp only [Hub.online]
    by_cases hv : v = u
    · subst hv
      rw [dictGet_dictSet_self, hq]
      rfl
    · rw [dictGet_dictSet_ne _ _ hv]

theorem broadcastLoop_online (sender : String) (wire : ChatEnvelope)
    (members : List String) :
    ∀ (hub : Hub) (c : Nat) (dset : Finset String) (trace : List HubSend)
      (v : String),
      (broadcastLoop sender wire members hub c dset trace).hub.online v = hub.online v := by
  induction members with
  | nil => intro hub c dset trace v; rfl
  | cons m rest ih =>
    intro hub c dset trace v
    simp only [broadcastLoop]
    by_cases hm : m = sender
    · rw [if_pos hm]
      exact ih hub c dset trace v
    · rw [if_neg hm]
      by_cases hd : (hub.send_to_user m wire).2 = true
      · simp only [hd, if_true]
        rw [ih]
        exact online_send_to_user hub m v wire
      · simp only [hd, if_false, Bool.false_eq_true]
        rw [ih]
        exact online_send_to_user hub m v wire

theorem broadcastLoop_delivered_to (sender : String) (wire : ChatEnvelope)
    (members : List String) :
    ∀ (hub : Hub) (c : Nat) (dset : Finset String) (trace : List HubSend)
      (x : String),
      x ∈ (broadcastLoop sender wire members hub c dset trace).delivered_to ↔
        x ∈ dset ∨ (x ∈ members ∧ x ≠ sender ∧ hub.online x = true) := by
  induction members with
  | nil =>
    intro hub c dset trace x
    simp [broadcastLoop]
  | cons m rest ih =>
    intro hub c dset trace x
    simp only [broadcastLoop]
    by_cases hm : m = sender
    · rw [if_pos hm]
      rw [ih]
      subst hm
      simp only [List.mem_cons]
      constructor
      · rintro (h | ⟨h1, h2, h3⟩)
        · exact Or.inl h
        · exact Or.inr ⟨Or.inr h1, h2, h3⟩
      · rintro (h | ⟨h1 | h1, h2, h3⟩)
        · exact Or.inl h
        · exact absurd h1 h2
        · exact Or.inr ⟨h1, h2, h3⟩
    · rw [if_neg hm]
      have hsnd := send_to_user_snd hub m wire
      by_cases hd : (hub.send_to_user m wire).2 = true
      · simp only [hd, if_true]
        rw [ih]
        have hon : ∀ y, ((hub.send_to_user m wire).1).online y = hub.online y :=
          fun y => online_send_to_user hub m y wire
        have hmon : hub.online m = true := by rw [← hsnd]; exact hd
        simp only [Finset.mem_insert, List.mem_cons, hon]
        constructor
        · rintro ((h | h) | ⟨h1, h2, h3⟩)
          · exact Or.inr ⟨Or.inl h, h ▸ hm, h ▸ hmon⟩
          · exact Or.inl h
          · exact Or.inr ⟨Or.inr h1, h2, h3⟩
        · rintro (h | ⟨h1 | h1, h2, h3⟩)
          · exact Or.inl (Or.inr h)
          · exact Or.inl (Or.inl h1)
          · exact Or.inr ⟨h1, h2, h3⟩
      · simp only [hd, if_false, Bool.false_eq_true]
        rw [ih]
        have hon : ∀ y, ((hub.send_to_user m wire).1).online y = hub.online y :=
          fun y => online_send_to_user hub m y wire
        have hmon : hub.online m = false := by
          rw [← hsnd]
          exact Bool.not_eq_true _ ▸ (Bool.eq_false_iff.mpr hd)
        simp only [List.mem_cons, hon]
        constructor
        · rintro (h | ⟨h1, h2, h3⟩)
          · exact Or.inl h
          · exact Or.inr ⟨Or.inr h1, h2, h3⟩
        · rintro (h | ⟨h1 | h1, h2, h3⟩)
          · exact Or.inl h
          · rw [h1, hmon] at h3
            exact absurd h3 (by simp)
          · exact Or.inr ⟨h1, h2, h3⟩

theorem broadcastLoop_count (sender : String) (wire : ChatEnvelope)
    (members : List String) :
    ∀ (hub : Hub) (c : Nat) (dset : Finset String) (trace : List HubSend),
      (broadcastLoop sender wire members hub c dset trace).delivered_count =
        c + (members.filter fun m => !decide (m = sender) && hub.online m).length := by
  induction members with
  | nil =>
    intro hub c dset trace
    simp [broadcastLoop]
  | cons m rest ih =>
    intro hub c dset trace
    simp only [broadcastLoop]
    have hfilter : ∀ hub2 : Hub, (∀ y, hub2.online y = hub.online y) →
        (rest.filter fun a => !decide (a = sender) && hub2.online a) =
          (rest.filter fun a => !decide (a = sender) && hub.online a) := by
      intro hub2 hon
      apply List.filter_congr
      intro a _
      rw [hon]
    by_cases hm : m = sender
    · rw [if_pos hm]
      rw [ih]
      simp [List.filter_cons, hm]
    · rw [if_neg hm]
      have hsnd := send_to_user_snd hub m wire
      have hon : ∀ y, ((hub.send_to_user m wire).1).online y = hub.online y :=
        fun y => online_send_to_user hub m y wire
      by_cases hd : (hub.send_to_user m wire).2 = true
      · simp only [hd, if_true]
        rw [ih, hfilter _ hon]
        have hmon : hub.online m = true := by rw [← hsnd]; exact hd
        simp [List.filter_cons, hm, hmon]
        omega
      · simp only [hd, if_false, Bool.false_eq_true]
        rw [ih, hfilter _ hon]
        have hmon : hub.online m = false := by
          rw [← hsnd]
          exact Bool.eq_false_iff.mpr hd
        simp [List.filter_cons, hm, hmon]

/-- C1: in the SEND_DM path with both alice and bob online, Hub.send
returns true for the recipient and the sender is acked "delivered", yet
the persisted record (and the in-memory message) has an empty
delivered_to: the Hub.send outcome only lands in the dynamically assigned
`delivered` attribute, which append never serializes, so the stored
delivery state does NOT show the recipient as delivered, and the message
immediately reappears in the recipient's undelivered backlog. -/
theorem dm_delivery_state_not_persisted :
    (readerStep "alice" "f1" "f2" 1000 demoDMEnvelope demoDMState).2 =
      [⟨"bob", ⟨MsgType.SEND_DM, "alice", "bob", "", "m1", "hi", 1000⟩, true⟩,
       ⟨"alice", ⟨MsgType.ACK, "server", "alice", "", "m1", "delivered", 1000⟩, true⟩] ∧
    (readerStep "alice" "f1" "f2" 1000 demoDMEnvelope demoDMState).1.messages.file =
      [⟨"m1", "alice", "bob", "hi", 1000, false, ∅⟩] ∧
    (readerStep "alice" "f1" "f2" 1000 demoDMEnvelope demoDMState).1.messages.msgs =
      [⟨"m1", "alice", "bob", "hi", 1000, false, ∅, some true⟩] ∧
    (readerStep "alice" "f1" "f2" 1000 demoDMEnvelope demoDMState).1.messages.get_undelivered_messages
        "bob" (some demoDMState.groups) =
      (readerStep "alice" "f1" "f2" 1000 demoDMEnvelope demoDMState).1.messages.msgs := by
  decide

/-- C2 counterexample: it is not the case that every mutating store
operation performs its durable file write before its in-memory update:
mark_delivered, create_group and add_member all mutate memory first. -/
theorem write_order_counterexample :
    ¬ (writeThrough append_steps = true ∧ writeThrough mark_delivered_steps = true ∧
       writeThrough create_group_steps = true ∧ writeThrough add_member_steps = true ∧
       writeThrough append_user_steps = true) := by
  decide

/-- C2 amended: MessagesRepo.append and UsersRepo.append_user write the
durable file before updating the in-memory cache, while
MessagesRepo.mark_delivered, GroupsRepo.create_group and
GroupsRepo.add_member update the in-memory state first and perform the
durable write second. -/
theorem write_order_amended :
    writeThrough append_steps = true ∧ writeThrough append_user_steps = true ∧
    writeThrough mark_delivered_steps = false ∧ writeThrough create_group_steps = false ∧
    writeThrough add_member_steps = false := by
  decide

/-- C6: create_group fails with the already-exists error and leaves the
whole store untouched when the name is present; otherwise it returns the
new group whose member set is exactly the creator, installs it under its
name without touching any other name, and appends it to the durable
file. -/
theorem create_group_spec (r : GroupsRepo) (name creator_id : String) (created_ts : Int) :
    ((dictGet r.groups_by_name name).isSome = true →
      r.create_group name creator_id created_ts =
        (r, Except.error ("Group " ++ name ++ " already exists"))) ∧
    (dictGet r.groups_by_name name = none →
      (r.create_group name creator_id created_ts).2 =
          Except.ok ⟨name, creator_id, [creator_id], created_ts⟩ ∧
      dictGet (r.create_group name creator_id created_ts).1.groups_by_name name =
          some ⟨name, creator_id, [creator_id], created_ts⟩ ∧
      (∀ n2, n2 ≠ name →
        dictGet (r.create_group name creator_id created_ts).1.groups_by_name n2 =
          dictGet r.groups_by_name n2) ∧
      (r.create_group name creator_id created_ts).1.file =
          r.file ++ [⟨name, creator_id, [creator_id], created_ts⟩]) := by
  constructor
  · intro h
    simp only [GroupsRepo.create_group, h, if_true]
  · intro h
    have h2 : (dictGet r.groups_by_name name).isSome = false := by rw [h]; rfl
    simp only [GroupsRepo.create_group, h2, Bool.false_eq_true, if_false]
    exact ⟨by trivial, dictGet_dictSet_self _ _ _,
      fun n2 hn => dictGet_dictSet_ne _ _ hn, by trivial⟩

/-- C6 witness: creating a fresh group in an empty store succeeds with
member set exactly the creator. -/
theorem create_group_spec_witness :
    (GroupsRepo.create_group ⟨[], []⟩ "#g" "uma" 7).2 =
      Except.ok ⟨"#g", "uma", ["uma"], 7⟩ :=
  ((create_group_spec ⟨[], []⟩ "#g" "uma" 7).2 rfl).1

/-- C7: add_member fails with the not-found error for an absent group;
returns false with no change when the user is already a member; otherwise
returns true, appends the user to that group's member set without
touching other names, persists the update (the durable file is rewritten
from the in-memory store and contains the updated record), and a second
identical call returns false, changes nothing, and leaves exactly one
occurrence of the user in member_ids. -/
theorem add_member_spec (r : GroupsRepo) (group_name user_id : String) :
    (dictGet r.groups_by_name group_name = none →
      r.add_member group_name user_id =
        (r, Except.error ("Group " ++ group_name ++ " does not exist"))) ∧
    (∀ g, dictGet r.groups_by_name group_name = some g → user_id ∈ g.member_ids →
      r.add_member group_name user_id = (r, Except.ok false)) ∧
    (∀ g, dictGet r.groups_by_name group_name = some g → user_id ∉ g.member_ids →
      (r.add_member group_name user_id).2 = Except.ok true ∧
      dictGet (r.add_member group_name user_id).1.groups_by_name group_name =
        some { g with member_ids := g.member_ids ++ [user_id] } ∧
      (∀ n2, n2 ≠ group_name →
        dictGet (r.add_member group_name user_id).1.groups_by_name n2 =
          dictGet r.groups_by_name n2) ∧
      (r.add_member group_name user_id).1.file =
        ((r.add_member group_name user_id).1.groups_by_name).map Prod.snd ∧
      ({ g with member_ids := g.member_ids ++ [user_id] } : Group) ∈
        (r.add_member group_name user_id).1.file ∧
      (r.add_member group_name user_id).1.add_member group_name user_id =
        ((r.add_member group_name user_id).1, Except.ok false) ∧
      (∀ g2, dictGet (r.add_member group_name user_id).1.groups_by_name group_name = some g2 →
        g2.member_ids.count user_id = 1)) := by
  refine ⟨?_, ?_, ?_⟩
  · intro h
    simp only [GroupsRepo.add_member, h]
  · intro g hg hmem
    simp only [GroupsRepo.add_member, hg, if_pos hmem]
  · intro g hg hmem
    simp only [GroupsRepo.add_member, hg, if_neg hmem]
    have hself := dictGet_dictSet_self group_name
      ({ g with member_ids := g.member_ids ++ [user_id] } : Group) r.groups_by_name
    have hmem2 : user_id ∈ ({ g with member_ids := g.member_ids ++ [user_id] } : Group).member_ids := by
      simp
    refine ⟨by trivial, hself, fun n2 hn => dictGet_dictSet_ne _ _ hn, by trivial,
      dictGet_mem_values hself, ?_, ?_⟩
    · simp only [GroupsRepo.add_member, hself, if_pos hmem2]
    · intro g2 hg2
      rw [hself] at hg2
      cases hg2
      simp [List.count_append, List.count_eq_zero.mpr hmem]

/-- C7 witness: adding a non-member to an existing one-member group
returns true. -/
theorem add_member_spec_witness :
    (GroupsRepo.add_member
      ⟨[⟨"#g", "uma", ["uma"], 7⟩], [("#g", ⟨"#g", "uma", ["uma"], 7⟩)]⟩ "#g" "bob").2 =
      Except.ok true :=
  ((add_member_spec ⟨[⟨"#g", "uma", ["uma"], 7⟩], [("#g", ⟨"#g", "uma", ["uma"], 7⟩)]⟩
      "#g" "bob").2.2 ⟨"#g", "uma", ["uma"], 7⟩ rfl (by decide)).1

/-- C8: when the first envelope of a stream is not a SYSTEM envelope with
a non-empty user id, OpenStream aborts UNAUTHENTICATED and the server
state is untouched: no hub queue is registered, no backlog is drained, no
message is marked delivered. -/
theorem handshake_reject (first : ChatEnvelope) (s : ServerState)
    (h : first.type ≠ MsgType.SYSTEM ∨ first.from_user_id = "") :
    openStreamStart first s =
      (s, Except.error "UNAUTHENTICATED: First message must be SYSTEM with from_user_id") := by
  have h2 : ¬ (first.type = MsgType.SYSTEM ∧ first.from_user_id ≠ "") := by
    rcases h with h | h
    · rintro ⟨h1, -⟩
      exact h h1
    · rintro ⟨-, h1⟩
      exact h1 h
  simp only [openStreamStart, if_neg h2]

/-- C8 witness: a first envelope of type SEND_DM is rejected and the state
is unchanged. -/
theorem handshake_reject_witness :
    openStreamStart ⟨MsgType.SEND_DM, "alice", "", "", "", "", 0⟩ demoDMState =
      (demoDMState,
       Except.error "UNAUTHENTICATED: First message must be SYSTEM with from_user_id") :=
  handshake_reject _ _ (Or.inl (by decide))

/-- C10: an inbound envelope that is a SEND_DM with empty recipient or
text, a SEND_GROUP with empty group id or text, or of any other type,
persists nothing, changes no store, and produces exactly one hub send: a
generic ACK with text "ack" to the sender. -/
theorem malformed_envelope_generic_ack (s : ServerState)
    (user_id fresh_id fresh_id2 : String) (now : Int) (incoming : ChatEnvelope)
    (h : (incoming.type = MsgType.SEND_DM ∧ (incoming.to_user_id = "" ∨ incoming.text = "")) ∨
         (incoming.type = MsgType.SEND_GROUP ∧ (incoming.group_id = "" ∨ incoming.text = "")) ∨
         (incoming.type ≠ MsgType.SEND_DM ∧ incoming.type ≠ MsgType.SEND_GROUP)) :
    readerStep user_id fresh_id fresh_id2 now incoming s =
      (⟨(s.hub.send_to_user user_id
           ⟨MsgType.ACK, "server", user_id, "",
             if incoming.message_id = "" then fresh_id2 else incoming.message_id,
             "ack", now⟩).1,
        s.messages, s.groups⟩,
       [⟨user_id,
         ⟨MsgType.ACK, "server", user_id, "",
           if incoming.message_id = "" then fresh_id2 else incoming.message_id,
           "ack", now⟩,
         s.hub.online user_id⟩]) := by
  have h1 : ¬ (incoming.type = MsgType.SEND_DM ∧ incoming.to_user_id ≠ "" ∧ incoming.text ≠ "") := by
    rcases h with ⟨ht, hor⟩ | ⟨ht, hor⟩ | ⟨ha, hb⟩ <;> rintro ⟨t, a, b⟩
    · rcases hor with hh | hh
      · exact a hh
      · exact b hh
    · rw [ht] at t
      exact absurd t (by decide)
    · exact ha t
  have h2 : ¬ (incoming.type = MsgType.SEND_GROUP ∧ incoming.group_id ≠ "" ∧ incoming.text ≠ "") := by
    rcases h with ⟨ht, hor⟩ | ⟨ht, hor⟩ | ⟨ha, hb⟩ <;> rintro ⟨t, a, b⟩
    · rw [ht] at t
      exact absurd t (by decide)
    · rcases hor with hh | hh
      · exact a hh
      · exact b hh
    · exact hb t
  simp only [readerStep, if_neg h1, if_neg h2]
  rw [send_to_user_snd]

/-- C3: processing a SEND_GROUP envelope with non-empty group id and text:
an unknown group yields only an error ack to the sender and persists
nothing; a sender who is not a member yields only an error ack and
persists nothing; otherwise exactly one message is persisted whose
delivered_to is the set of members for whom Hub.send returned true plus
the sender, and the sender is acked with
"delivered to delivered_count/(member_count - 1) members". -/
theorem send_group_spec (s : ServerState) (user_id fresh_id fresh_id2 : String)
    (now : Int) (incoming : ChatEnvelope)
    (htype : incoming.type = MsgType.SEND_GROUP)
    (hgid : incoming.group_id ≠ "") (htext : incoming.text ≠ "") :
    (s.groups.get_group incoming.group_id = none →
      (readerStep user_id fresh_id fresh_id2 now incoming s).1.messages = s.messages ∧
      (readerStep user_id fresh_id fresh_id2 now incoming s).1.groups = s.groups ∧
      (readerStep user_id fresh_id fresh_id2 now incoming s).2 =
        [⟨user_id,
          ⟨MsgType.ACK, "server", user_id, "",
            (if incoming.message_id = "" then fresh_id else incoming.message_id),
            "error: group not found", now⟩,
          s.hub.online user_id⟩]) ∧
    (∀ g, s.groups.get_group incoming.group_id = some g → user_id ∉ g.member_ids →
      (readerStep user_id fresh_id fresh_id2 now incoming s).1.messages = s.messages ∧
      (readerStep user_id fresh_id fresh_id2 now incoming s).1.groups = s.groups ∧
      (readerStep user_id fresh_id fresh_id2 now incoming s).2 =
        [⟨user_id,
          ⟨MsgType.ACK, "server", user_id, "",
            (if incoming.message_id = "" then fresh_id else incoming.message_id),
            "error: not a member of this group", now⟩,
          s.hub.online user_id⟩]) ∧
    (∀ g, s.groups.get_group incoming.group_id = some g → user_id ∈ g.member_ids →
      ∃ msg : Message,
        (readerStep user_id fresh_id fresh_id2 now incoming s).1.messages.msgs =
          s.messages.msgs ++ [msg] ∧
        (readerStep user_id fresh_id fresh_id2 now incoming s).1.messages.file =
          s.messages.file ++ [msg.toRec] ∧
        msg.is_group_message = true ∧
        msg.from_user_id = user_id ∧
        msg.to_user_id = incoming.group_id ∧
        msg.text = incoming.text ∧
        msg.sent_ts = now ∧
        (∀ x, x ∈ msg.delivered_to ↔
          x = user_id ∨ (x ∈ g.member_ids ∧ x ≠ user_id ∧ s.hub.online x = true)) ∧
        (readerStep user_id fresh_id fresh_id2 now incoming s).2.getLast? =
          some
            ⟨user_id,
              ⟨MsgType.ACK, "server", user_id, "",
                (if incoming.message_id = "" then fresh_id else incoming.message_id),
                "delivered to " ++
                  toString (g.member_ids.filter fun m =>
                    !decide (m = user_id) && s.hub.online m).length ++
                  "/" ++ toString (g.member_ids.length - 1) ++ " members",
                now⟩,
              s.hub.online user_id⟩) := by
  have hnotdm : ¬ (incoming.type = MsgType.SEND_DM ∧ incoming.to_user_id ≠ "" ∧
      incoming.text ≠ "") := by
    rintro ⟨t, -, -⟩
    rw [htype] at t
    exact absurd t (by decide)
  have hcond : incoming.type = MsgType.SEND_GROUP ∧ incoming.group_id ≠ "" ∧
      incoming.text ≠ "" := ⟨htype, hgid, htext⟩
  refine ⟨?_, ?_, ?_⟩
  · intro hnone
    simp only [readerStep, if_neg hnotdm, if_pos hcond, hnone]
    refine ⟨by trivial, by trivial, ?_⟩
    rw [send_to_user_snd]
  · intro g hg hmem
    have him : s.groups.is_member incoming.group_id user_id = false := by
      simp only [GroupsRepo.is_member]
      simp only [GroupsRepo.get_group] at hg
      rw [hg]
      simp [hmem]
    simp only [readerStep, if_neg hnotdm, if_pos hcond, hg]
    rw [if_pos (by simp [him])]
    refine ⟨by trivial, by trivial, ?_⟩
    rw [send_to_user_snd]
  · intro g hg hmem
    have him : s.groups.is_member incoming.group_id user_id = true := by
      simp only [GroupsRepo.is_member]
      simp only [GroupsRepo.get_group] at hg
      rw [hg]
      simp [hmem]
    simp only [readerStep, if_neg hnotdm, if_pos hcond, hg]
    rw [if_neg (not_not_intro him)]
    refine ⟨_, rfl, rfl, rfl, rfl, rfl, rfl, rfl, ?_, ?_⟩
    · intro x
      simp only [Finset.mem_insert, broadcastLoop_delivered_to, Finset.not_mem_empty,
        false_or]
    · rw [List.getLast?_concat]
      rw [send_to_user_snd, broadcastLoop_online, broadcastLoop_count, Nat.zero_add]

/-- C3 witness: alice posts to the three-member group with bob online and
carol offline; the persisted message's delivered_to is alice plus the
online members, i.e. alice and bob. -/
theorem send_group_spec_witness :
    ∃ msg : Message,
      (readerStep "alice" "f1" "f2" 2000 demoGroupEnvelope demoGroupState).1.messages.msgs =
        demoGroupState.messages.msgs ++ [msg] ∧
      ∀ x, x ∈ msg.delivered_to ↔
        x = "alice" ∨ (x ∈ demoGroup.member_ids ∧ x ≠ "alice" ∧
          demoGroupState.hub.online x = true) := by
  obtain ⟨msg, h1, h2, h3, h4, h5, h6, h7, h8, h9⟩ :=
    (send_group_spec demoGroupState "alice" "f1" "f2" 2000 demoGroupEnvelope rfl
      (by decide) (by decide)).2.2 demoGroup rfl (by decide)
  exact ⟨msg, h1, h8⟩

/-- C4 counterexample: the claim (undelivered = exactly the pending DMs to
the user plus the pending group messages of groups the user belongs to)
fails on a stored group message whose group name lacks the '#' marker:
the user is a member and the message is pending, yet the returned backlog
is empty because of the startswith('#') guard at repo.py line 194. -/
theorem undelivered_membership_counterexample :
    ¬ (∀ (r : MessagesRepo) (user_id : String) (gr : GroupsRepo) (m : Message),
        m ∈ r.get_undelivered_messages user_id (some gr) ↔
          m ∈ r.msgs ∧
            ((m.is_group_message = false ∧ m.to_user_id = user_id ∧
                user_id ∉ m.delivered_to) ∨
             (m.is_group_message = true ∧ gr.is_member m.to_user_id user_id = true ∧
                user_id ∉ m.delivered_to))) := by
  intro hclaim
  have h := (hclaim demoPlainNameRepo "uma" demoPlainNameGroups demoPlainNameMsg).2
    (by decide)
  exact absurd h (by decide)

/-- C4 amended: get_undelivered_messages returns exactly the stored
direct messages addressed to the user and not yet delivered to them, plus
the stored group messages whose group name starts with '#', of a group
the user is currently a member of, and not yet delivered to them. -/
theorem get_undelivered_spec (r : MessagesRepo) (user_id : String)
    (gr : GroupsRepo) (m : Message) :
    m ∈ r.get_undelivered_messages user_id (some gr) ↔
      m ∈ r.msgs ∧
        ((m.is_group_message = false ∧ m.to_user_id = user_id ∧
            user_id ∉ m.delivered_to) ∨
         (m.is_group_message = true ∧ startsWithHash m.to_user_id = true ∧
            gr.is_member m.to_user_id user_id = true ∧
            user_id ∉ m.delivered_to)) := by
  unfold MessagesRepo.get_undelivered_messages
  rw [List.mem_filter]
  refine and_congr_right fun _ => ?_
  cases hgm : m.is_group_message with
  | false => simp [hgm, Option.elim]
  | true =>
    simp [hgm, Option.elim]
    tauto

theorem get_conversation_eq (r : MessagesRepo) (user_id chat_id : String)
    (is_group : Bool) (limit : Nat) :
    r.get_conversation_messages user_id chat_id is_group limit =
      (if 0 < limit then
        ((r.msgs.filter (historyPred user_id chat_id is_group)).mergeSort
            fun a b => decide (a.sent_ts ≤ b.sent_ts)).drop
          (((r.msgs.filter (historyPred user_id chat_id is_group)).mergeSort
            fun a b => decide (a.sent_ts ≤ b.sent_ts)).length - limit)
      else
        (r.msgs.filter (historyPred user_id chat_id is_group)).mergeSort
          fun a b => decide (a.sent_ts ≤ b.sent_ts)) := by
  cases is_group <;> rfl

/-- C9: get_conversation_messages returns only messages of the requested
conversation (DM pair in either direction, or group messages addressed to
the chat), sorted ascending by sent_ts; with limit = 0 it is a
permutation of all such stored messages, and with limit > 0 it keeps
min(limit, total) messages, the dropped ones all having timestamps no
larger than every kept one (the most recent messages are kept). -/
theorem get_conversation_spec (r : MessagesRepo) (user_id chat_id : String)
    (is_group : Bool) (limit : Nat) :
    (∀ m ∈ r.get_conversation_messages user_id chat_id is_group limit,
        historyPred user_id chat_id is_group m = true) ∧
    (r.get_conversation_messages user_id chat_id is_group limit).Pairwise
        (fun a b => a.sent_ts ≤ b.sent_ts) ∧
    (limit = 0 →
      (r.get_conversation_messages user_id chat_id is_group limit).Perm
        (r.msgs.filter (historyPred user_id chat_id is_group))) ∧
    (0 < limit →
      (r.get_conversation_messages user_id chat_id is_group limit).length =
        min limit (r.msgs.filter (historyPred user_id chat_id is_group)).length ∧
      ∃ dropped,
        (dropped ++ r.get_conversation_messages user_id chat_id is_group limit).Perm
          (r.msgs.filter (historyPred user_id chat_id is_group)) ∧
        ∀ a ∈ dropped, ∀ b ∈ r.get_conversation_messages user_id chat_id is_group limit,
          a.sent_ts ≤ b.sent_ts) := by
  have heq := get_conversation_eq r user_id chat_id is_group limit
  have htrans : ∀ a b c : Message, decide (a.sent_ts ≤ b.sent_ts) = true →
      decide (b.sent_ts ≤ c.sent_ts) = true → decide (a.sent_ts ≤ c.sent_ts) = true := by
    intro a b c hab hbc
    simp only [decide_eq_true_eq] at *
    exact le_trans hab hbc
  have htotal : ∀ a b : Message,
      (decide (a.sent_ts ≤ b.sent_ts) || decide (b.sent_ts ≤ a.sent_ts)) = true := by
    intro a b
    simp only [Bool.or_eq_true, decide_eq_true_eq]
    exact le_total _ _
  have hsorted := List.sorted_mergeSort htrans htotal
    (r.msgs.filter (historyPred user_id chat_id is_group))
  have hsorted2 : ((r.msgs.filter (historyPred user_id chat_id is_group)).mergeSort
      fun a b => decide (a.sent_ts ≤ b.sent_ts)).Pairwise
        (fun a b => a.sent_ts ≤ b.sent_ts) :=
    hsorted.imp fun h => by simpa using h
  have hperm := List.mergeSort_perm (r.msgs.filter (historyPred user_id chat_id is_group))
    fun a b : Message => decide (a.sent_ts ≤ b.sent_ts)
  refine ⟨?_, ?_, ?_, ?_⟩
  · intro m hm
    rw [heq] at hm
    have hm2 : m ∈ (r.msgs.filter (historyPred user_id chat_id is_group)).mergeSort
        fun a b => decide (a.sent_ts ≤ b.sent_ts) := by
      by_cases hl : 0 < limit
      · rw [if_pos hl] at hm
        exact (List.drop_sublist _ _).subset hm
      · rw [if_neg hl] at hm
        exact hm
    exact (List.mem_filter.mp (hperm.subset hm2)).2
  · rw [heq]
    by_cases hl : 0 < limit
    · rw [if_pos hl]
      exact List.Pairwise.sublist (List.drop_sublist _ _) hsorted2
    · rw [if_neg hl]
      exact hsorted2
  · intro h0
    rw [heq, if_neg (by omega)]
    exact hperm
  · intro hl
    rw [heq, if_pos hl]
    constructor
    · rw [List.length_drop, hperm.length_eq]
      omega
    · refine ⟨((r.msgs.filter (historyPred user_id chat_id is_group)).mergeSort
        fun a b => decide (a.sent_ts ≤ b.sent_ts)).take
          (((r.msgs.filter (historyPred user_id chat_id is_group)).mergeSort
            fun a b => decide (a.sent_ts ≤ b.sent_ts)).length - limit), ?_, ?_⟩
      · rw [List.take_append_drop]
        exact hperm
      · have hp := hsorted2
        rw [← List.take_append_drop
          ((((r.msgs.filter (historyPred user_id chat_id is_group)).mergeSort
            fun a b => decide (a.sent_ts ≤ b.sent_ts)).length - limit))
          ((r.msgs.filter (historyPred user_id chat_id is_group)).mergeSort
            fun a b => decide (a.sent_ts ≤ b.sent_ts))] at hp
        exact (List.pairwise_append.mp hp).2.2

/-- C9 witness: with limit 0 the history of the u-c DM pair is a
permutation of all stored messages between u and c. -/
theorem get_conversation_spec_witness :
    (MessagesRepo.get_conversation_messages demoConvRepo "u" "c" false 0).Perm
      (demoConvRepo.msgs.filter (historyPred "u" "c" false)) :=
  (get_conversation_spec demoConvRepo "u" "c" false 0).2.2.1 rfl

/-- C10 witness: a client-sent ACK envelope gets the generic "ack" reply
and nothing else. -/
theorem malformed_envelope_generic_ack_witness :
    readerStep "alice" "f1" "f2" 1000 ⟨MsgType.ACK, "", "", "", "", "", 0⟩ demoDMState =
      (⟨(demoDMState.hub.send_to_user "alice"
           ⟨MsgType.ACK, "server", "alice", "", "f2", "ack", 1000⟩).1,
        demoDMState.messages, demoDMState.groups⟩,
       [⟨"alice", ⟨MsgType.ACK, "server", "alice", "", "f2", "ack", 1000⟩,
         demoDMState.hub.online "alice"⟩]) :=
  malformed_envelope_generic_ack demoDMState "alice" "f1" "f2" 1000
    ⟨MsgType.ACK, "", "", "", "", "", 0⟩ (Or.inr (Or.inr (by decide)))

end Chatapp
